import Mathlib

/-!
Verification of the campaign-build pipeline in `affiliate6.py`.

The file shallowly embeds the data model (`AudienceTargeting`, `AdCreative`,
`AdSetParameters`, `FacebookCampaignParameters`, `HotmartProduct`), the
targeting-spec builder, the media uploader, and the campaign build pipeline
of `FacebookCampaignManager`.  Python dictionaries sent as request bodies
become typed request structures; the dict returned by
`_build_targeting_spec` becomes an association list (preserving key order
and key presence/absence); Python `Optional` fields become `Option`;
Python floats become exact rationals (`Rat`); attribute errors and type
errors that Python raises become an explicit `PyError` result.

Remote SDK calls (`AdAccount.create_campaign`, `AdSet.create`,
`AdAccount.create_ad_creative`, `Ad.create`) are modelled as emitted
`Call` values carrying the exact request the source builds; media uploads
(`requests.get` + `AdImage.remote_create`, `AdVideo.remote_create`) are
modelled by caller-supplied fallible oracles.  Remote identifiers returned
by create calls are modelled by a fresh-id counter.  `datetime.now()`
date stamps and `os.getenv` lookups become explicit parameters in a `Ctx`.
-/

/-- Python exceptions relevant to this program: an `AttributeError` from
reading a field a dataclass does not define, and a `TypeError` from
iterating over `None`. -/
inductive PyError where
  | attributeError (attr : String)
  | typeError (msg : String)
deriving DecidableEq, Repr

/-- `CampaignObjective(str, Enum)` of the source. -/
inductive CampaignObjective where
  | OUTCOME_SALES | OUTCOME_LEADS | OUTCOME_AWARENESS
  | OUTCOME_TRAFFIC | OUTCOME_ENGAGEMENT | REACH
deriving DecidableEq, Repr

/-- The `.value` string of each `CampaignObjective` member. -/
def CampaignObjective.value : CampaignObjective → String
  | .OUTCOME_SALES => "OUTCOME_SALES"
  | .OUTCOME_LEADS => "OUTCOME_LEADS"
  | .OUTCOME_AWARENESS => "OUTCOME_AWARENESS"
  | .OUTCOME_TRAFFIC => "OUTCOME_TRAFFIC"
  | .OUTCOME_ENGAGEMENT => "OUTCOME_ENGAGEMENT"
  | .REACH => "REACH"

/-- `OptimizationGoal(str, Enum)` of the source. -/
inductive OptimizationGoal where
  | REACH | IMPRESSIONS | LINK_CLICKS | LANDING_PAGE_VIEWS | VALUE
deriving DecidableEq, Repr

/-- The `.value` string of each `OptimizationGoal` member. -/
def OptimizationGoal.value : OptimizationGoal → String
  | .REACH => "REACH"
  | .IMPRESSIONS => "IMPRESSIONS"
  | .LINK_CLICKS => "LINK_CLICKS"
  | .LANDING_PAGE_VIEWS => "LANDING_PAGE_VIEWS"
  | .VALUE => "VALUE"

/-- `BidStrategy(str, Enum)` of the source. -/
inductive BidStrategy where
  | LOWEST_COST_WITHOUT_CAP | LOWEST_COST_WITH_BID_CAP | COST_CAP
deriving DecidableEq, Repr

/-- The `.value` string of each `BidStrategy` member. -/
def BidStrategy.value : BidStrategy → String
  | .LOWEST_COST_WITHOUT_CAP => "LOWEST_COST_WITHOUT_CAP"
  | .LOWEST_COST_WITH_BID_CAP => "LOWEST_COST_WITH_BID_CAP"
  | .COST_CAP => "COST_CAP"

/-- `Placement` dataclass. -/
structure Placement where
  platform : String
  position : String
  device_types : List String
  enabled : Bool := true
deriving DecidableEq, Repr

/-- `AudienceTargeting` dataclass.  Every list field defaults to Python
`None`, hence `Option (List _)` with default `none`; `age_range` is a
pair of ints defaulting to `(18, 65)`. -/
structure AudienceTargeting where
  age_range : Nat × Nat := (18, 65)
  genders : Option (List Nat) := none
  languages : Option (List String) := none
  locations : Option (List String) := none
  interests : Option (List String) := none
  behaviors : Option (List String) := none
  demographics : Option (List String) := none
  excluded_interests : Option (List String) := none
  custom_audiences : Option (List String) := none
  lookalike_audiences : Option (List String) := none
  excluded_custom_audiences : Option (List String) := none
deriving DecidableEq, Repr

/-- `AdCreative` dataclass.  Its complete field list — note that no
`thumbnail_url` field is defined. -/
structure AdCreative where
  primary_text : String
  headline : String
  description : String
  call_to_action : String
  image_hash : Option String := none
  video_id : Option String := none
  link_destination : Option String := none
  display_link : Option String := none
deriving DecidableEq, Repr

/-- `AdSetParameters` dataclass.  The `schedule : Optional[List[Dict]]`
field is omitted: it carries opaque heterogeneous dicts and is never read
by any code under verification. -/
structure AdSetParameters where
  name : String
  optimization_goal : OptimizationGoal
  billing_event : String
  bid_strategy : BidStrategy
  targeting : AudienceTargeting
  daily_budget : Rat
  lifetime_budget : Option Rat := none
  start_time : Option String := none
  end_time : Option String := none
  placements : Option (List Placement) := none
deriving DecidableEq, Repr

/-- `FacebookCampaignParameters` dataclass.  The `conversion_tracking` and
`campaign_rules` fields are omitted: they hold opaque heterogeneous dicts
and are never read by the pipeline. -/
structure FacebookCampaignParameters where
  name : String
  objective : CampaignObjective
  buying_type : String := "AUCTION"
  status : String := "PAUSED"
  daily_budget : Rat := 10
  bid_strategy : BidStrategy := .LOWEST_COST_WITHOUT_CAP
  cold_audience : Option AudienceTargeting := none
  warm_audience : Option AudienceTargeting := none
  hot_audience : Option AudienceTargeting := none
  placements : Option (List Placement) := none
  pixel_id : Option String := none
  ad_sets : Option (List AdSetParameters) := none
  ad_creatives : Option (List AdCreative) := none
  special_ad_categories : Option (List String) := none
deriving DecidableEq, Repr

/-- The URL map built by `HotmartProduct.__post_init__`:
an insertion-ordered dict from variant name to URL. -/
def productUrlsOf (base_url : String) : List (String × String) :=
  [("sales", base_url),
   ("product", base_url ++ "?dp=1"),
   ("checkout", base_url ++ "?ap=838e"),
   ("order_bump", base_url ++ "?ap=25f0")]

/-- `HotmartProduct` dataclass together with the `urls` attribute set by
`__post_init__`.  `target_audience` and `testimonials` are omitted: they
hold opaque dicts and are never read by the pipeline. -/
structure HotmartProduct where
  name : String
  base_url : String
  affiliate_id : String
  price : Rat
  description : String
  images : List String
  videos : Option (List String) := none
  urls : List (String × String)
deriving DecidableEq, Repr

/-- Dataclass construction of `HotmartProduct`: the generated `__init__`
stores the given fields, then `__post_init__` derives `urls` from
`base_url`. -/
def mkHotmartProduct (name base_url affiliate_id : String) (price : Rat)
    (description : String) (images : List String)
    (videos : Option (List String)) : HotmartProduct :=
  { name, base_url, affiliate_id, price, description, images, videos,
    urls := productUrlsOf base_url }

/-! ## Targeting spec builder (`_build_targeting_spec`) -/

/-- The wrapper dict produced by comprehensions like
`[{id: interest} for interest in targeting.interests]` (one entry each). -/
structure IdWrap where
  id : String
deriving DecidableEq, Repr

/-- A value stored in the targeting-spec dict. -/
inductive TValue where
  | natV (n : Nat)
  | gendersV (l : Option (List Nat))
  | geoV (countries : Option (List String))
  | idsV (l : List IdWrap)
deriving DecidableEq, Repr

/-- Python truthiness of an optional list: `None` and `[]` are falsy,
a non-empty list is truthy. -/
def truthyList {α : Type} : Option (List α) → Bool
  | none => false
  | some [] => false
  | some (_ :: _) => true

/-- The list content of an optional list (Python `None` behaves as an
empty collection wherever the source tests truthiness or iterates). -/
def toList {α : Type} : Option (List α) → List α
  | none => []
  | some l => l

/-- `[{id: v} for v in l]`. -/
def wrapIds (l : List String) : List IdWrap :=
  l.map fun v => ⟨v⟩

/-- `_build_targeting_spec`: builds the spec dict with the four base keys
in insertion order, then appends each conditional key only when the
corresponding input list is truthy (non-`None` and non-empty). -/
def build_targeting_spec (targeting : AudienceTargeting) : List (String × TValue) :=
  [("age_min", .natV targeting.age_range.1),
   ("age_max", .natV targeting.age_range.2),
   ("genders", .gendersV targeting.genders),
   ("geo_locations", .geoV targeting.locations)]
  ++ (if truthyList targeting.interests then
        [("interests", .idsV (wrapIds (toList targeting.interests)))] else [])
  ++ (if truthyList targeting.behaviors then
        [("behaviors", .idsV (wrapIds (toList targeting.behaviors)))] else [])
  ++ (if truthyList targeting.custom_audiences then
        [("custom_audiences", .idsV (wrapIds (toList targeting.custom_audiences)))] else [])
  ++ (if truthyList targeting.excluded_custom_audiences then
        [("excluded_custom_audiences",
          .idsV (wrapIds (toList targeting.excluded_custom_audiences)))] else [])

/-! ## Media uploader (`MediaManager`) -/

/-- The `media_urls` dict argument of `upload_media`. -/
structure MediaUrls where
  images : List String
  videos : List String
deriving DecidableEq, Repr

/-- The `media_ids` dict returned by `upload_media`. -/
structure MediaIds where
  images : List String
  videos : List String
deriving DecidableEq, Repr

/-- `_upload_image`: the whole body (HTTP fetch plus
`AdImage.remote_create` plus reading the returned hash) is modelled by the
oracle `up`; the `try/except` catches any failure and returns `None`. -/
def upload_image (up : String → Except String String) (image_url : String) :
    Option String :=
  match up image_url with
  | .ok image_hash => some image_hash
  | .error _ => none

/-- `_upload_video`: `AdVideo.remote_create` plus reading the returned id
is modelled by the oracle `up`; the `try/except` catches any failure and
returns `None`. -/
def upload_video (up : String → Except String String) (video_url : String) :
    Option String :=
  match up video_url with
  | .ok video_id => some video_id
  | .error _ => none

/-- The image loop of `upload_media`: append the result only when it is
truthy (`if image_id:` — both `None` and the empty string are falsy). -/
def uploadImagesLoop (up : String → Except String String) :
    List String → List String
  | [] => []
  | url :: rest =>
      match upload_image up url with
      | some image_id =>
          if image_id != "" then image_id :: uploadImagesLoop up rest
          else uploadImagesLoop up rest
      | none => uploadImagesLoop up rest

/-- The video loop of `upload_media`: append the result only when it is
truthy (`if video_id:` — both `None` and the empty string are falsy). -/
def uploadVideosLoop (up : String → Except String String) :
    List String → List String
  | [] => []
  | url :: rest =>
      match upload_video up url with
      | some video_id =>
          if video_id != "" then video_id :: uploadVideosLoop up rest
          else uploadVideosLoop up rest
      | none => uploadVideosLoop up rest

/-- The identifier `upload_media` records for one image URL: the upload
must succeed and return a truthy (non-empty) identifier. -/
def recordedImageId (up : String → Except String String) (url : String) :
    Option String :=
  match upload_image up url with
  | some image_id => if image_id != "" then some image_id else none
  | none => none

/-- The identifier `upload_media` records for one video URL: the upload
must succeed and return a truthy (non-empty) identifier. -/
def recordedVideoId (up : String → Except String String) (url : String) :
    Option String :=
  match upload_video up url with
  | some video_id => if video_id != "" then some video_id else none
  | none => none

/-- `upload_media`: start from `{images: [], videos: []}`; each loop runs
only when the corresponding list is truthy (the `if media_urls.get(...)`
guards), which changes nothing for an empty list. -/
def upload_media (upImg upVid : String → Except String String)
    (media_urls : MediaUrls) : MediaIds :=
  { images := if media_urls.images.isEmpty then []
              else uploadImagesLoop upImg media_urls.images,
    videos := if media_urls.videos.isEmpty then []
              else uploadVideosLoop upVid media_urls.videos }

/-! ## Campaign build pipeline (`FacebookCampaignManager`) -/

/-- Ambient inputs the source reads from the environment and the clock:
`os.getenv(FB_PAGE_ID)` and the `datetime.now().strftime(%Y%m%d)` stamp. -/
structure Ctx where
  page_id : String
  today : String
deriving DecidableEq, Repr

/-- Remote identifier returned by the n-th remote create call. -/
def freshId (n : Nat) : String :=
  "fbid_" ++ toString n

/-- The params dict of `ad_account.create_campaign` in
`_create_base_campaign`. -/
structure CampaignCreateReq where
  name : String
  objective : String
  status : String
  special_ad_categories : List String
  daily_budget : Rat
  bid_strategy : String
  buying_type : String
deriving DecidableEq, Repr

/-- The params dict of `AdSet(...).create` in `_create_adset`. -/
structure AdSetCreateReq where
  name : String
  campaign_id : String
  daily_budget : Rat
  optimization_goal : String
  billing_event : String
  bid_strategy : String
  targeting : List (String × TValue)
  start_time : Option String
  end_time : Option String
  status : String
deriving DecidableEq, Repr

/-- The `link_data` creative body built by `_create_image_ad`. -/
structure ImageCreativeReq where
  name : String
  page_id : String
  link : String
  message : String
  headline : String
  description : String
  image_hash : String
  call_to_action : String
deriving DecidableEq, Repr

/-- The `video_data` creative body built by `_create_video_ad`. -/
structure VideoCreativeReq where
  name : String
  page_id : String
  video_id : String
  call_to_action : String
  image_url : String
  title : String
  message : String
  description : String
  link_description : String
deriving DecidableEq, Repr

/-- The params dict of `Ad(...).create`. -/
structure AdCreateReq where
  name : String
  adset_id : String
  creative_id : String
  status : String
deriving DecidableEq, Repr

/-- One remote create call issued by the pipeline, with its request. -/
inductive Call where
  | campaignCreate (r : CampaignCreateReq)
  | adSetCreate (r : AdSetCreateReq)
  | imageCreativeCreate (r : ImageCreativeReq)
  | videoCreativeCreate (r : VideoCreativeReq)
  | adCreate (r : AdCreateReq)
deriving DecidableEq, Repr

/-- `product.videos if product.videos else []` (both `None` and an empty
list are falsy and give `[]`, which equals `toList`). -/
def videosOrEmpty (videos : Option (List String)) : List String :=
  toList videos

/-- Python `x or default` on an optional string: `None` and the empty
string are falsy. -/
def pyOrStr (x : Option String) (default : String) : String :=
  match x with
  | none => default
  | some s => if s = "" then default else s

/-- `product.urls[sales]`: the key is always present by construction, so
the lookup is total on products built by `mkHotmartProduct`; a missing key
is modelled by the empty string (never reached). -/
def urlsSales (product : HotmartProduct) : String :=
  (product.urls.lookup "sales").getD ""

/-- `_create_base_campaign`: the campaign-create request body.  The
`product` argument is unused in the source body as well. -/
def create_base_campaign (_product : HotmartProduct)
    (params : FacebookCampaignParameters) (ctx : Ctx) : CampaignCreateReq :=
  { name := params.name ++ "_" ++ ctx.today,
    objective := params.objective.value,
    status := params.status,
    special_ad_categories := (params.special_ad_categories).getD [],
    daily_budget := params.daily_budget * 100,
    bid_strategy := params.bid_strategy.value,
    buying_type := params.buying_type }

/-- `_create_adset`: the ad-set-create request body under campaign
`campaign_id`.  The `product` argument is unused in the source body. -/
def create_adset (campaign_id : String) (params : AdSetParameters)
    (_product : HotmartProduct) : AdSetCreateReq :=
  { name := params.name,
    campaign_id := campaign_id,
    daily_budget := params.daily_budget * 100,
    optimization_goal := params.optimization_goal.value,
    billing_event := params.billing_event,
    bid_strategy := params.bid_strategy.value,
    targeting := build_targeting_spec params.targeting,
    start_time := params.start_time,
    end_time := params.end_time,
    status := "PAUSED" }

/-- The attribute read `creative.thumbnail_url` in `_create_video_ad`:
`AdCreative` defines no `thumbnail_url` field (see the `AdCreative`
structure above, which lists every dataclass field), so in Python this
read raises `AttributeError` for every `AdCreative` value. -/
def AdCreative.thumbnail_url (_creative : AdCreative) : Except PyError String :=
  .error (.attributeError "thumbnail_url")

/-- `_create_image_ad`: one creative-create call followed by one
ad-create call referencing the returned creative id; consumes two remote
ids.  `link` falls back to the sales URL when `link_destination` is
falsy. -/
def create_image_ad (ctx : Ctx) (adset_id : String) (creative : AdCreative)
    (product : HotmartProduct) (image_hash : String) (n : Nat) :
    List Call × Nat :=
  let creative_id := freshId n
  ([.imageCreativeCreate
      { name := "Creative_" ++ ctx.today,
        page_id := ctx.page_id,
        link := pyOrStr creative.link_destination (urlsSales product),
        message := creative.primary_text,
        headline := creative.headline,
        description := creative.description,
        image_hash := image_hash,
        call_to_action := creative.call_to_action },
    .adCreate
      { name := "Ad_Image_" ++ ctx.today,
        adset_id := adset_id,
        creative_id := creative_id,
        status := "PAUSED" }],
   n + 2)

/-- `_create_video_ad`: the creative params dict reads
`creative.thumbnail_url` while being built, so the `AttributeError` is
raised before the creative-create call is issued; were the read to
succeed, one creative-create and one ad-create call would follow. -/
def create_video_ad (ctx : Ctx) (adset_id : String) (creative : AdCreative)
    (video_id : String) (n : Nat) : List Call × Nat × Except PyError Unit :=
  match creative.thumbnail_url with
  | .error e => ([], n, .error e)
  | .ok thumbnail =>
      let creative_id := freshId n
      ([.videoCreativeCreate
          { name := "Creative_Video_" ++ ctx.today,
            page_id := ctx.page_id,
            video_id := video_id,
            call_to_action := creative.call_to_action,
            image_url := thumbnail,
            title := creative.headline,
            message := creative.primary_text,
            description := creative.description,
            link_description := creative.description },
        .adCreate
          { name := "Ad_Video_" ++ ctx.today,
            adset_id := adset_id,
            creative_id := creative_id,
            status := "PAUSED" }],
       n + 2, .ok ())

/-- `for image_hash in media_ids[images]: self._create_image_ad(...)`. -/
def imageAdsLoop (ctx : Ctx) (adset_id : String) (creative : AdCreative)
    (product : HotmartProduct) : List String → Nat → List Call × Nat
  | [], n => ([], n)
  | image_hash :: rest, n =>
      let r1 := create_image_ad ctx adset_id creative product image_hash n
      let r2 := imageAdsLoop ctx adset_id creative product rest r1.2
      (r1.1 ++ r2.1, r2.2)

/-- `for video_id in media_ids[videos]: self._create_video_ad(...)`; an
uncaught exception aborts the loop. -/
def videoAdsLoop (ctx : Ctx) (adset_id : String) (creative : AdCreative) :
    List String → Nat → List Call × Nat × Except PyError Unit
  | [], n => ([], n, .ok ())
  | video_id :: rest, n =>
      match create_video_ad ctx adset_id creative video_id n with
      | (calls, n1, .error e) => (calls, n1, .error e)
      | (calls, n1, .ok ()) =>
          match videoAdsLoop ctx adset_id creative rest n1 with
          | (calls2, n2, r) => (calls ++ calls2, n2, r)

/-- The body of `_create_ads` for one creative: all image ads, then all
video ads. -/
def adsForCreative (ctx : Ctx) (adset_id : String) (creative : AdCreative)
    (product : HotmartProduct) (media_ids : MediaIds) (n : Nat) :
    List Call × Nat × Except PyError Unit :=
  let r1 := imageAdsLoop ctx adset_id creative product media_ids.images n
  match videoAdsLoop ctx adset_id creative media_ids.videos r1.2 with
  | (vidCalls, n2, r) => (r1.1 ++ vidCalls, n2, r)

/-- `for creative in creatives:` of `_create_ads`; an uncaught exception
aborts the loop. -/
def creativesLoop (ctx : Ctx) (adset_id : String)
    (product : HotmartProduct) (media_ids : MediaIds) :
    List AdCreative → Nat → List Call × Nat × Except PyError Unit
  | [], n => ([], n, .ok ())
  | creative :: rest, n =>
      match adsForCreative ctx adset_id creative product media_ids n with
      | (calls, n1, .error e) => (calls, n1, .error e)
      | (calls, n1, .ok ()) =>
          match creativesLoop ctx adset_id product media_ids rest n1 with
          | (calls2, n2, r) => (calls ++ calls2, n2, r)

/-- `_create_ads`: iterating `creatives` when it is `None` raises
`TypeError`. -/
def create_ads (ctx : Ctx) (adset_id : String)
    (creatives : Option (List AdCreative)) (product : HotmartProduct)
    (media_ids : MediaIds) (n : Nat) : List Call × Nat × Except PyError Unit :=
  match creatives with
  | none => ([], n, .error (.typeError "NoneType object is not iterable"))
  | some cs => creativesLoop ctx adset_id product media_ids cs n

/-- `for ad_set_params in campaign_params.ad_sets:` of `create_campaign`:
create the ad-set (consuming one remote id), then its ads; an uncaught
exception aborts the loop. -/
def adSetsLoop (ctx : Ctx) (campaign_id : String) (product : HotmartProduct)
    (creatives : Option (List AdCreative)) (media_ids : MediaIds) :
    List AdSetParameters → Nat → List Call × Nat × Except PyError Unit
  | [], n => ([], n, .ok ())
  | ad_set_params :: rest, n =>
      let adset_id := freshId n
      let adsetCall := Call.adSetCreate (create_adset campaign_id ad_set_params product)
      match create_ads ctx adset_id creatives product media_ids (n + 1) with
      | (adCalls, n1, .error e) => (adsetCall :: adCalls, n1, .error e)
      | (adCalls, n1, .ok ()) =>
          match adSetsLoop ctx campaign_id product creatives media_ids rest n1 with
          | (calls2, n2, r) => (adsetCall :: (adCalls ++ calls2), n2, r)

/-- `create_campaign`: upload media, create the campaign (remote id 0),
then build every ad-set with its ads.  Iterating `ad_sets` when it is
`None` raises `TypeError` after the campaign-create call was already
issued.  Returns the full ordered trace of issued create calls and either
the campaign handle or the uncaught Python error. -/
def create_campaign (ctx : Ctx) (upImg upVid : String → Except String String)
    (product : HotmartProduct) (campaign_params : FacebookCampaignParameters) :
    List Call × Except PyError String :=
  let media_ids := upload_media upImg upVid
    { images := product.images, videos := videosOrEmpty product.videos }
  let campReq := create_base_campaign product campaign_params ctx
  let campaign_id := freshId 0
  match campaign_params.ad_sets with
  | none =>
      ([.campaignCreate campReq],
       .error (.typeError "NoneType object is not iterable"))
  | some ad_sets =>
      match adSetsLoop ctx campaign_id product campaign_params.ad_creatives
          media_ids ad_sets 1 with
      | (calls, _, .error e) => (Call.campaignCreate campReq :: calls, .error e)
      | (calls, _, .ok ()) => (Call.campaignCreate campReq :: calls, .ok campaign_id)

/-! ## Call classification -/

/-- Is this a campaign-create call? -/
def isCampaignCreate : Call → Bool
  | .campaignCreate _ => true
  | _ => false

/-- Is this an ad-set-create call? -/
def isAdSetCreate : Call → Bool
  | .adSetCreate _ => true
  | _ => false

/-- Is this a creative-create call (image or video)? -/
def isCreativeCreate : Call → Bool
  | .imageCreativeCreate _ => true
  | .videoCreativeCreate _ => true
  | _ => false

/-- Is this an ad-create call? -/
def isAdCreate : Call → Bool
  | .adCreate _ => true
  | _ => false

/-- Is this a video-creative-create call? -/
def isVideoCreativeCreate : Call → Bool
  | .videoCreativeCreate _ => true
  | _ => false

/-- Status discipline of one call: ad-set-create and ad-create requests
carry status PAUSED; other calls are unconstrained by it. -/
def statusPaused : Call → Bool
  | .adSetCreate r => r.status == "PAUSED"
  | .adCreate r => r.status == "PAUSED"
  | _ => true

/-- Invariant of every call the pipeline emits: it is not a
video-creative-create, and it satisfies the paused-status discipline. -/
def goodCall (c : Call) : Bool :=
  !isVideoCreativeCreate c && statusPaused c

/-! ## Basic lemmas -/

theorem truthyList_true_iff {α : Type} (o : Option (List α)) :
    truthyList o = true ↔ toList o ≠ [] := by
  cases o with
  | none => simp [truthyList, toList]
  | some l => cases l <;> simp [truthyList, toList]

theorem truthyList_false_iff {α : Type} (o : Option (List α)) :
    truthyList o = false ↔ toList o = [] := by
  cases o with
  | none => simp [truthyList, toList]
  | some l => cases l <;> simp [truthyList, toList]

/-- The video-ad step aborts at the first video: the `thumbnail_url`
attribute read raises before any call is issued. -/
theorem videoAdsLoop_cons (ctx : Ctx) (adset_id : String)
    (creative : AdCreative) (video_id : String) (rest : List String)
    (n : Nat) :
    videoAdsLoop ctx adset_id creative (video_id :: rest) n
      = ([], n, .error (.attributeError "thumbnail_url")) := rfl

theorem goodCall_create_image_ad (ctx : Ctx) (adset_id : String)
    (creative : AdCreative) (product : HotmartProduct) (image_hash : String)
    (n : Nat) :
    ((create_image_ad ctx adset_id creative product image_hash n).1).all
      goodCall = true := by
  simp [create_image_ad, goodCall, isVideoCreativeCreate, statusPaused]

theorem goodCall_imageAdsLoop (ctx : Ctx) (adset_id : String)
    (creative : AdCreative) (product : HotmartProduct) :
    ∀ (hashes : List String) (n : Nat),
      ((imageAdsLoop ctx adset_id creative product hashes n).1).all
        goodCall = true
  | [], _ => rfl
  | h :: t, n => by
      have ih := goodCall_imageAdsLoop ctx adset_id creative product t
        ((create_image_ad ctx adset_id creative product h n).2)
      simp only [imageAdsLoop, List.all_append, Bool.and_eq_true]
      exact ⟨goodCall_create_image_ad ctx adset_id creative product h n, ih⟩

theorem goodCall_videoAdsLoop (ctx : Ctx) (adset_id : String)
    (creative : AdCreative) :
    ∀ (videos : List String) (n : Nat),
      ((videoAdsLoop ctx adset_id creative videos n).1).all goodCall = true
  | [], _ => rfl
  | _ :: _, _ => rfl

theorem goodCall_adsForCreative (ctx : Ctx) (adset_id : String)
    (creative : AdCreative) (product : HotmartProduct) (media_ids : MediaIds)
    (n : Nat) :
    ((adsForCreative ctx adset_id creative product media_ids n).1).all
      goodCall = true := by
  rcases hv : videoAdsLoop ctx adset_id creative media_ids.videos
      ((imageAdsLoop ctx adset_id creative product media_ids.images n).2)
    with ⟨vc, n2, r⟩
  have h2 : vc.all goodCall = true := by
    have h := goodCall_videoAdsLoop ctx adset_id creative media_ids.videos
      ((imageAdsLoop ctx adset_id creative product media_ids.images n).2)
    rw [hv] at h
    exact h
  simp [adsForCreative, hv, List.all_append, h2,
    goodCall_imageAdsLoop ctx adset_id creative product media_ids.images n]

theorem goodCall_creativesLoop (ctx : Ctx) (adset_id : String)
    (product : HotmartProduct) (media_ids : MediaIds) :
    ∀ (creatives : List AdCreative) (n : Nat),
      ((creativesLoop ctx adset_id product media_ids creatives n).1).all
        goodCall = true
  | [], _ => rfl
  | c :: rest, n => by
      rcases hA : adsForCreative ctx adset_id c product media_ids n
        with ⟨calls, n1, r⟩
      have h1 : calls.all goodCall = true := by
        have h := goodCall_adsForCreative ctx adset_id c product media_ids n
        rw [hA] at h
        exact h
      cases r with
      | error e => simp [creativesLoop, hA, h1]
      | ok u =>
          cases u
          rcases hR : creativesLoop ctx adset_id product media_ids rest n1
            with ⟨calls2, n2, r2⟩
          have h2 : calls2.all goodCall = true := by
            have h := goodCall_creativesLoop ctx adset_id product media_ids rest n1
            rw [hR] at h
            exact h
          simp [creativesLoop, hA, hR, List.all_append, h1, h2]

theorem goodCall_create_ads (ctx : Ctx) (adset_id : String)
    (creatives : Option (List AdCreative)) (product : HotmartProduct)
    (media_ids : MediaIds) (n : Nat) :
    ((create_ads ctx adset_id creatives product media_ids n).1).all
      goodCall = true := by
  cases creatives with
  | none => rfl
  | some cs =>
      simpa [create_ads] using
        goodCall_creativesLoop ctx adset_id product media_ids cs n

theorem goodCall_adSetsLoop (ctx : Ctx) (campaign_id : String)
    (product : HotmartProduct) (creatives : Option (List AdCreative))
    (media_ids : MediaIds) :
    ∀ (ad_sets : List AdSetParameters) (n : Nat),
      ((adSetsLoop ctx campaign_id product creatives media_ids ad_sets n).1).all
        goodCall = true
  | [], _ => rfl
  | a :: rest, n => by
      rcases hA : create_ads ctx (freshId n) creatives product media_ids (n + 1)
        with ⟨adCalls, n1, r⟩
      have h1 : adCalls.all goodCall = true := by
        have h := goodCall_create_ads ctx (freshId n) creatives product
          media_ids (n + 1)
        rw [hA] at h
        exact h
      cases r with
      | error e =>
          simp [adSetsLoop, hA, h1, goodCall, isVideoCreativeCreate,
            statusPaused, create_adset]
      | ok u =>
          cases u
          rcases hR : adSetsLoop ctx campaign_id product creatives media_ids rest n1
            with ⟨calls2, n2, r2⟩
          have h2 : calls2.all goodCall = true := by
            have h := goodCall_adSetsLoop ctx campaign_id product creatives
              media_ids rest n1
            rw [hR] at h
            exact h
          simp [adSetsLoop, hA, hR, List.all_append, h1, h2, goodCall,
            isVideoCreativeCreate, statusPaused, create_adset]

theorem goodCall_create_campaign (ctx : Ctx)
    (upImg upVid : String → Except String String) (product : HotmartProduct)
    (params : FacebookCampaignParameters) :
    ((create_campaign ctx upImg upVid product params).1).all goodCall = true := by
  cases hset : params.ad_sets with
  | none =>
      simp [create_campaign, hset, goodCall, isVideoCreativeCreate, statusPaused]
  | some ad_sets =>
      rcases hL : adSetsLoop ctx (freshId 0) product params.ad_creatives
          (upload_media upImg upVid
            { images := product.images, videos := videosOrEmpty product.videos })
          ad_sets 1 with ⟨calls, m, r⟩
      have h1 : calls.all goodCall = true := by
        have h := goodCall_adSetsLoop ctx (freshId 0) product params.ad_creatives
          (upload_media upImg upVid
            { images := product.images, videos := videosOrEmpty product.videos })
          ad_sets 1
        rw [hL] at h
        exact h
      cases r with
      | error e =>
          simp [create_campaign, hset, hL, h1, goodCall, isVideoCreativeCreate,
            statusPaused]
      | ok u =>
          cases u
          simp [create_campaign, hset, hL, h1, goodCall, isVideoCreativeCreate,
            statusPaused]

/-- With at least one uploaded video, the ads for any single creative end
in the uncaught `AttributeError`. -/
theorem adsForCreative_err (ctx : Ctx) (adset_id : String)
    (creative : AdCreative) (product : HotmartProduct) (media_ids : MediaIds)
    (n : Nat) (h : media_ids.videos ≠ []) :
    (adsForCreative ctx adset_id creative product media_ids n).2.2
      = .error (.attributeError "thumbnail_url") := by
  obtain ⟨v, vs, hv⟩ := List.exists_cons_of_ne_nil h
  simp [adsForCreative, hv, videoAdsLoop_cons]

/-- With at least one uploaded video and at least one creative, the
creatives loop ends in the uncaught `AttributeError`. -/
theorem creativesLoop_err (ctx : Ctx) (adset_id : String)
    (product : HotmartProduct) (media_ids : MediaIds)
    (h : media_ids.videos ≠ []) :
    ∀ (creatives : List AdCreative) (n : Nat), creatives ≠ [] →
      (creativesLoop ctx adset_id product media_ids creatives n).2.2
        = .error (.attributeError "thumbnail_url")
  | [], _, hc => absurd rfl hc
  | c :: rest, n, _ => by
      rcases hA : adsForCreative ctx adset_id c product media_ids n
        with ⟨calls, n1, r⟩
      have hr : r = .error (.attributeError "thumbnail_url") := by
        have h1 := adsForCreative_err ctx adset_id c product media_ids n h
        rw [hA] at h1
        exact h1
      subst hr
      simp [creativesLoop, hA]

/-- Same for `_create_ads` with a non-`None`, non-empty creatives list. -/
theorem create_ads_err (ctx : Ctx) (adset_id : String)
    (creatives : List AdCreative) (product : HotmartProduct)
    (media_ids : MediaIds) (n : Nat) (hm : media_ids.videos ≠ [])
    (hc : creatives ≠ []) :
    (create_ads ctx adset_id (some creatives) product media_ids n).2.2
      = .error (.attributeError "thumbnail_url") := by
  simpa [create_ads] using
    creativesLoop_err ctx adset_id product media_ids hm creatives n hc

/-- Same for the ad-set loop with at least one ad-set. -/
theorem adSetsLoop_err (ctx : Ctx) (campaign_id : String)
    (product : HotmartProduct) (creatives : List AdCreative)
    (media_ids : MediaIds) (hm : media_ids.videos ≠ [])
    (hc : creatives ≠ []) :
    ∀ (ad_sets : List AdSetParameters) (n : Nat), ad_sets ≠ [] →
      (adSetsLoop ctx campaign_id product (some creatives) media_ids
        ad_sets n).2.2 = .error (.attributeError "thumbnail_url")
  | [], _, hs => absurd rfl hs
  | a :: rest, n, _ => by
      rcases hA : create_ads ctx (freshId n) (some creatives) product
          media_ids (n + 1) with ⟨adCalls, n1, r⟩
      have hr : r = .error (.attributeError "thumbnail_url") := by
        have h1 := create_ads_err ctx (freshId n) creatives product media_ids
          (n + 1) hm hc
        rw [hA] at h1
        exact h1
      subst hr
      simp [adSetsLoop, hA]

/-! ## Upload loops as filters -/

theorem uploadImagesLoop_eq_filterMap (up : String → Except String String) :
    ∀ urls : List String,
      uploadImagesLoop up urls = urls.filterMap (recordedImageId up)
  | [] => rfl
  | u :: rest => by
      rw [List.filterMap_cons]
      cases h : upload_image up u with
      | none =>
          simp [uploadImagesLoop, recordedImageId, h,
            uploadImagesLoop_eq_filterMap up rest]
      | some s =>
          cases hs : (s != "") <;>
            simp [uploadImagesLoop, recordedImageId, h, hs,
              uploadImagesLoop_eq_filterMap up rest]

theorem uploadVideosLoop_eq_filterMap (up : String → Except String String) :
    ∀ urls : List String,
      uploadVideosLoop up urls = urls.filterMap (recordedVideoId up)
  | [] => rfl
  | u :: rest => by
      rw [List.filterMap_cons]
      cases h : upload_video up u with
      | none =>
          simp [uploadVideosLoop, recordedVideoId, h,
            uploadVideosLoop_eq_filterMap up rest]
      | some s =>
          cases hs : (s != "") <;>
            simp [uploadVideosLoop, recordedVideoId, h, hs,
              uploadVideosLoop_eq_filterMap up rest]

/-! ## Concrete sample inputs -/

/-- An upload oracle that always succeeds. -/
def okUpload : String → Except String String :=
  fun url => .ok ("up_" ++ url)

/-- An upload oracle that fails for `img_a` and succeeds otherwise. -/
def failFirstUpload : String → Except String String :=
  fun url => if url = "img_a" then .error "boom" else .ok "hash_b"

/-- An upload oracle that succeeds with the empty string as identifier. -/
def emptyIdUpload : String → Except String String :=
  fun _ => .ok ""

def sampleCtx : Ctx := { page_id := "page_1", today := "20260101" }

def sampleTargeting : AudienceTargeting := {}

def sampleAdSet : AdSetParameters :=
  { name := "Cold Traffic", optimization_goal := .REACH,
    billing_event := "IMPRESSIONS", bid_strategy := .LOWEST_COST_WITHOUT_CAP,
    targeting := sampleTargeting, daily_budget := 20 }

def sampleCreative : AdCreative :=
  { primary_text := "txt", headline := "head", description := "desc",
    call_to_action := "LEARN_MORE" }

/-- A product with no images and one video. -/
def sampleProductVideo : HotmartProduct :=
  mkHotmartProduct "Course" "https://x.test/ABC" "AFF1" 197 "course desc"
    [] (some ["https://path.to/v1.mp4"])

/-- Campaign parameters with one ad-set and one creative. -/
def sampleParams : FacebookCampaignParameters :=
  { name := "Camp", objective := .OUTCOME_SALES,
    ad_sets := some [sampleAdSet], ad_creatives := some [sampleCreative] }

/-! ## Claims -/

/-- C1: the claimed call counts (1 campaign-create, 1 ad-set-create per
ad-set, and per ad-set `creatives x (images + videos)` creative-creates
and as many ad-creates) fail as soon as any video is uploaded: at the
concrete input with 1 ad-set, 1 creative, 0 uploaded images and 1
uploaded video, the claim demands 1 creative-create and 1 ad-create, but
`create_campaign` issues the campaign-create and the ad-set-create and
then aborts with `AttributeError` on `thumbnail_url`, issuing zero
creative-create and zero ad-create calls. -/
theorem c1_counts_fail_on_uploaded_video :
    (create_campaign sampleCtx okUpload okUpload sampleProductVideo
        sampleParams).2 = .error (.attributeError "thumbnail_url") ∧
    ((create_campaign sampleCtx okUpload okUpload sampleProductVideo
        sampleParams).1).countP isCampaignCreate = 1 ∧
    ((create_campaign sampleCtx okUpload okUpload sampleProductVideo
        sampleParams).1).countP isAdSetCreate = 1 ∧
    ((create_campaign sampleCtx okUpload okUpload sampleProductVideo
        sampleParams).1).countP isCreativeCreate = 0 ∧
    ((create_campaign sampleCtx okUpload okUpload sampleProductVideo
        sampleParams).1).countP isAdCreate = 0 :=
  ⟨rfl, rfl, rfl, rfl, rfl⟩

/-- C2: for every `AdCreative` and uploaded video id, `_create_video_ad`
fails with `AttributeError` on the undefined `thumbnail_url` field before
issuing its creative-create call; hence every build with at least one
uploaded video, at least one ad-set and at least one creative aborts with
that error; and on all inputs whatsoever the pipeline never issues a
video-creative-create call. -/
theorem c2_video_ad_step_always_fails :
    (∀ (ctx : Ctx) (adset_id : String) (creative : AdCreative)
        (video_id : String) (n : Nat),
      create_video_ad ctx adset_id creative video_id n
        = ([], n, .error (.attributeError "thumbnail_url"))) ∧
    (∀ (ctx : Ctx) (upImg upVid : String → Except String String)
        (product : HotmartProduct) (params : FacebookCampaignParameters)
        (ad_sets : List AdSetParameters) (creatives : List AdCreative),
      params.ad_sets = some ad_sets → ad_sets ≠ [] →
      params.ad_creatives = some creatives → creatives ≠ [] →
      (upload_media upImg upVid
        { images := product.images,
          videos := videosOrEmpty product.videos }).videos ≠ [] →
      (create_campaign ctx upImg upVid product params).2
        = .error (.attributeError "thumbnail_url")) ∧
    (∀ (ctx : Ctx) (upImg upVid : String → Except String String)
        (product : HotmartProduct) (params : FacebookCampaignParameters),
      ((create_campaign ctx upImg upVid product params).1).countP
        isVideoCreativeCreate = 0) := by
  refine ⟨fun _ _ _ _ _ => rfl, ?_, ?_⟩
  · intro ctx upImg upVid product params ad_sets creatives hset hsne hcr hcne hv
    rcases hL : adSetsLoop ctx (freshId 0) product (some creatives)
        (upload_media upImg upVid
          { images := product.images, videos := videosOrEmpty product.videos })
        ad_sets 1 with ⟨calls, m, r⟩
    have hr : r = .error (.attributeError "thumbnail_url") := by
      have h2 := adSetsLoop_err ctx (freshId 0) product creatives
        (upload_media upImg upVid
          { images := product.images, videos := videosOrEmpty product.videos })
        hv hcne ad_sets 1 hsne
      rw [hL] at h2
      exact h2
    subst hr
    simp [create_campaign, hset, hcr, hL]
  · intro ctx upImg upVid product params
    rw [List.countP_eq_zero]
    intro c hc
    have h := List.all_eq_true.mp
      (goodCall_create_campaign ctx upImg upVid product params) c hc
    simp [goodCall] at h
    simp [h.1]

/-- C2 witness: at the concrete input (one ad-set, one creative, one
successfully uploaded video) the build aborts with the
`thumbnail_url` `AttributeError`. -/
theorem c2_witness :
    (create_campaign sampleCtx okUpload okUpload sampleProductVideo
        sampleParams).2 = .error (.attributeError "thumbnail_url") :=
  c2_video_ad_step_always_fails.2.1 sampleCtx okUpload okUpload
    sampleProductVideo sampleParams [sampleAdSet] [sampleCreative]
    rfl (List.cons_ne_nil _ _) rfl (List.cons_ne_nil _ _) (by decide)

/-- C3 counterexample: an upload that SUCCEEDS but returns the empty
string as its identifier is omitted from the result by the `if image_id:`
truthiness guard, so a successful upload's identifier is not always
included: with the oracle returning `.ok` of the empty string for
`img_a`, the upload succeeds yet the result holds no identifier. -/
theorem c3_empty_id_counterexample :
    emptyIdUpload "img_a" = .ok "" ∧
    (upload_media emptyIdUpload okUpload
        { images := ["img_a"], videos := [] }).images = [] :=
  ⟨rfl, rfl⟩

/-- C3 (amended): `upload_media` is total (never raises): the result is
exactly, in order, the identifiers of the successful uploads that are
truthy (non-empty) — failed uploads are omitted, and so is a successful
upload returning an empty identifier, by the same `if image_id:` /
`if video_id:` guards; in particular with two image URLs of which the
first fails and the second succeeds with a non-empty identifier, the
result carries exactly that one identifier, and zero identifiers of
either kind is a valid outcome. -/
theorem c3_upload_failures_isolated :
    (∀ (upImg upVid : String → Except String String)
        (media_urls : MediaUrls),
      upload_media upImg upVid media_urls
        = { images := media_urls.images.filterMap (recordedImageId upImg),
            videos := media_urls.videos.filterMap (recordedVideoId upVid) }) ∧
    (∀ (upImg upVid : String → Except String String)
        (u1 u2 e h1 : String),
      upImg u1 = .error e → upImg u2 = .ok h1 → h1 ≠ "" →
      (upload_media upImg upVid { images := [u1, u2], videos := [] }).images
        = [h1]) := by
  constructor
  · intro upImg upVid media_urls
    unfold upload_media
    rw [uploadImagesLoop_eq_filterMap, uploadVideosLoop_eq_filterMap]
    rcases media_urls with ⟨imgs, vids⟩
    cases imgs <;> cases vids <;> simp
  · intro upImg upVid u1 u2 e h1 he hk hne
    simp [upload_media, uploadImagesLoop, upload_image, he, hk,
      bne_iff_ne, hne]

/-- C3 witness: with the concrete oracle failing on `img_a` and
succeeding on `img_b` with the non-empty identifier `hash_b`, exactly
one image identifier is returned. -/
theorem c3_witness :
    (upload_media failFirstUpload okUpload
        { images := ["img_a", "img_b"], videos := [] }).images = ["hash_b"] :=
  c3_upload_failures_isolated.2 failFirstUpload okUpload
    "img_a" "img_b" "boom" "hash_b" rfl rfl (by decide)

/-- C4: for every `AudienceTargeting` with an ordered age range, the
targeting spec carries `age_min` equal to the range minimum and `age_max`
equal to the maximum, and it always contains the `genders` key and the
`geo_locations` object wrapping the locations list as country codes,
whether or not those inputs were supplied. -/
theorem c4_base_targeting_keys (t : AudienceTargeting)
    (_h : t.age_range.1 ≤ t.age_range.2) :
    (build_targeting_spec t).lookup "age_min" = some (.natV t.age_range.1) ∧
    (build_targeting_spec t).lookup "age_max" = some (.natV t.age_range.2) ∧
    (build_targeting_spec t).lookup "genders" = some (.gendersV t.genders) ∧
    (build_targeting_spec t).lookup "geo_locations"
      = some (.geoV t.locations) := by
  refine ⟨?_, ?_, ?_, ?_⟩ <;> simp [build_targeting_spec, List.lookup]

/-- C4 witness: the default targeting record has an ordered age range and
the four base keys with the expected values. -/
theorem c4_witness :
    sampleTargeting.age_range.1 ≤ sampleTargeting.age_range.2 ∧
    ((build_targeting_spec sampleTargeting).lookup "age_min"
        = some (.natV sampleTargeting.age_range.1) ∧
     (build_targeting_spec sampleTargeting).lookup "age_max"
        = some (.natV sampleTargeting.age_range.2) ∧
     (build_targeting_spec sampleTargeting).lookup "genders"
        = some (.gendersV sampleTargeting.genders) ∧
     (build_targeting_spec sampleTargeting).lookup "geo_locations"
        = some (.geoV sampleTargeting.locations)) :=
  ⟨by decide, c4_base_targeting_keys sampleTargeting (by decide)⟩

/-- C5: each of the four conditional keys is present in the targeting
spec exactly when the corresponding input list is non-empty, in which
case its value is the input list with each entry wrapped as an id object,
order preserved; an empty (or absent) input list leaves the key absent. -/
theorem c5_conditional_targeting_keys (t : AudienceTargeting) :
    ((build_targeting_spec t).lookup "interests"
      = if toList t.interests = [] then none
        else some (.idsV (wrapIds (toList t.interests)))) ∧
    ((build_targeting_spec t).lookup "behaviors"
      = if toList t.behaviors = [] then none
        else some (.idsV (wrapIds (toList t.behaviors)))) ∧
    ((build_targeting_spec t).lookup "custom_audiences"
      = if toList t.custom_audiences = [] then none
        else some (.idsV (wrapIds (toList t.custom_audiences)))) ∧
    ((build_targeting_spec t).lookup "excluded_custom_audiences"
      = if toList t.excluded_custom_audiences = [] then none
        else some (.idsV (wrapIds (toList t.excluded_custom_audiences)))) := by
  refine ⟨?_, ?_, ?_, ?_⟩ <;>
  · simp only [build_targeting_spec]
    split_ifs <;>
      simp_all [truthyList_true_iff, truthyList_false_iff,
        Bool.not_eq_true, List.lookup]

/-- C10: every key of the targeting spec is drawn from the eight known
keys; in particular no key is ever derived from `languages`,
`demographics`, `excluded_interests` or `lookalike_audiences`, even when
those input lists are non-empty. -/
theorem c10_no_extra_targeting_keys (t : AudienceTargeting) :
    ((build_targeting_spec t).all fun kv =>
        ["age_min", "age_max", "genders", "geo_locations", "interests",
         "behaviors", "custom_audiences",
         "excluded_custom_audiences"].contains kv.1) = true := by
  simp only [build_targeting_spec]
  split_ifs <;> simp

/-- C6: every ad-set-create request and every ad-create request issued by
the pipeline carries status PAUSED, for all inputs: nothing the pipeline
creates is ever activated automatically. -/
theorem c6_adsets_and_ads_always_paused (ctx : Ctx)
    (upImg upVid : String → Except String String) (product : HotmartProduct)
    (params : FacebookCampaignParameters) :
    ((create_campaign ctx upImg upVid product params).1).all
      statusPaused = true := by
  rw [List.all_eq_true]
  intro c hc
  have h := List.all_eq_true.mp
    (goodCall_create_campaign ctx upImg upVid product params) c hc
  simp [goodCall] at h
  exact h.2

/-- C7: the daily_budget placed in the campaign-create request and in
each ad-set-create request equals the corresponding input daily budget
multiplied by 100 (arithmetic modelled exactly, over the rationals). -/
theorem c7_daily_budget_times_100 :
    (∀ (product : HotmartProduct) (params : FacebookCampaignParameters)
        (ctx : Ctx), 0 < params.daily_budget →
      (create_base_campaign product params ctx).daily_budget
        = params.daily_budget * 100) ∧
    (∀ (campaign_id : String) (params : AdSetParameters)
        (product : HotmartProduct), 0 < params.daily_budget →
      (create_adset campaign_id params product).daily_budget
        = params.daily_budget * 100) :=
  ⟨fun _ _ _ _ => rfl, fun _ _ _ _ => rfl⟩

/-- C7 witness: at the concrete sample inputs (campaign budget 10,
ad-set budget 20) the requests carry the budgets multiplied by 100. -/
theorem c7_witness :
    (create_base_campaign sampleProductVideo sampleParams sampleCtx).daily_budget
        = sampleParams.daily_budget * 100 ∧
    (create_adset "fbid_0" sampleAdSet sampleProductVideo).daily_budget
        = sampleAdSet.daily_budget * 100 :=
  ⟨c7_daily_budget_times_100.1 sampleProductVideo sampleParams sampleCtx
      (by norm_num [sampleParams]),
   c7_daily_budget_times_100.2 "fbid_0" sampleAdSet sampleProductVideo
      (by norm_num [sampleAdSet])⟩

/-- C8: the image-ad link is NOT resolved against the product URL map:
with `link_destination = "product"` (a URL-map key) and base URL
`https://x.test/ABC`, the creative-create request carries the literal
string `product`, not the mapped URL `https://x.test/ABC?dp=1`. -/
theorem c8_link_key_not_resolved :
    ((create_image_ad sampleCtx "fbid_1"
        { sampleCreative with link_destination := some "product" }
        (mkHotmartProduct "Course" "https://x.test/ABC" "AFF1" 197 "d" [] none)
        "hash_1" 2).1).head?
      = some (.imageCreativeCreate
          { name := "Creative_20260101", page_id := "page_1",
            link := "product", message := "txt", headline := "head",
            description := "desc", image_hash := "hash_1",
            call_to_action := "LEARN_MORE" }) ∧
    ("product" : String) ≠ "https://x.test/ABC?dp=1" :=
  ⟨rfl, by decide⟩

/-- C9: the derived URL map of every product contains exactly the four
entries sales = base, product = base + `?dp=1`, checkout = base +
`?ap=838e`, order_bump = base + `?ap=25f0`, fixed at construction (the
embedding is pure: no pipeline operation ever produces a modified
product, matching the source, which writes `urls` only in
`__post_init__`); instantiated at the base URL `https://x.test/ABC`. -/
theorem c9_derived_urls :
    (∀ (name base_url affiliate_id : String) (price : Rat)
        (description : String) (images : List String)
        (videos : Option (List String)),
      (mkHotmartProduct name base_url affiliate_id price description
          images videos).urls
        = [("sales", base_url),
           ("product", base_url ++ "?dp=1"),
           ("checkout", base_url ++ "?ap=838e"),
           ("order_bump", base_url ++ "?ap=25f0")]) ∧
    (mkHotmartProduct "Course" "https://x.test/ABC" "AFF1" 197 "d" [] none).urls
      = [("sales", "https://x.test/ABC"),
         ("product", "https://x.test/ABC?dp=1"),
         ("checkout", "https://x.test/ABC?ap=838e"),
         ("order_bump", "https://x.test/ABC?ap=25f0")] :=
  ⟨fun _ _ _ _ _ _ _ => rfl, rfl⟩
